import Mathlib

/-!
Shallow embedding of `src/deps/first/patternsleuth_bind/src/lib.rs` — the
resolution and scanning orchestration layer of the patternsleuth C binding.

External collaborators (the patternsleuth image reader, scan engine and
resolver registry) are passed in as explicit parameters: `read_image` becomes
an `Except` value, the scan engine a function from section data to the list of
match addresses, and `resolve_many` a function from the getter list to a list
of per-getter outcomes.  Machine integers (`u64`, `u16`) are modelled as `Nat`;
none of the verified operations performs arithmetic on them, so no wrap-around
modelling is needed.  Raw C output pointers are modelled as `Option` fields
(`none` = never written / null, as appropriate per definition).
-/

set_option autoImplicit false

/-- Mirrors `PsEngineVersion { major: u16, minor: u16 }`. -/
structure PsEngineVersion where
  major : Nat
  minor : Nat
deriving DecidableEq, Repr

/-- Mirrors `PsScanConfig`: one request flag per composite slot. -/
structure PsScanConfig where
  guobject_array : Bool
  fname_tostring : Bool
  fname_ctor_wchar : Bool
  gmalloc : Bool
  static_construct_object_internal : Bool
  ftext_fstring : Bool
  engine_version : Bool
  fuobject_hash_tables_get : Bool
  gnatives : Bool
  console_manager_singleton : Bool
deriving DecidableEq, Repr

/-- Mirrors `PsScanResults`: nine address slots plus the version slot. -/
structure PsScanResults where
  guobject_array : Nat
  fname_tostring : Nat
  fname_ctor_wchar : Nat
  gmalloc : Nat
  static_construct_object_internal : Nat
  ftext_fstring : Nat
  engine_version : PsEngineVersion
  fuobject_hash_tables_get : Nat
  gnatives : Nat
  console_manager_singleton : Nat
deriving DecidableEq, Repr

/-- Mirrors the `UE4SSResolution` collector: the per-slot outcome of
`exe.resolve(UE4SSResolution::resolver())`.  Address slots resolve to a `u64`
(`res.0`); the engine-version slot resolves to a `(major, minor)` pair.
Errors carry their diagnostic text. -/
structure UE4SSResolution where
  guobject_array : Except String Nat
  fname_tostring : Except String Nat
  fname_ctor_wchar : Except String Nat
  gmalloc : Except String Nat
  static_construct_object_internal : Except String Nat
  ftext_fstring : Except String Nat
  engine_version : Except String (Nat × Nat)
  fuobject_hash_tables_get : Except String Nat
  gnatives : Except String Nat
  console_manager_singleton : Except String Nat

/-- `true` on `Except.ok`, mirroring `Result::is_ok`. -/
def exceptIsOk {ε α : Type} : Except ε α → Bool
  | .ok _ => true
  | .error _ => false

/-- One expansion of the `handle!` macro of `ps_scan_internal`: if the slot is
requested, an `Ok` resolution writes the address, an `Err` writes `0` and —
unless the slot is optional — records the error.  If the slot is not requested
nothing happens (`cur` is the caller-supplied field value, left in place).
Returns the new field value and the errors contributed by this slot. -/
def handle (requested optionalSlot : Bool) (res : Except String Nat) (cur : Nat) :
    Nat × List String :=
  if requested then
    match res with
    | .ok a => (a, [])
    | .error e => (0, if optionalSlot then [] else [e])
  else (cur, [])

/-- The hand-written `engine_version` branch of `ps_scan_internal`: on `Ok` it
writes major/minor; on `Err` it records the error but — unlike `handle!` —
writes nothing to the results field. -/
def handleEngineVersion (requested : Bool) (res : Except String (Nat × Nat))
    (cur : PsEngineVersion) : PsEngineVersion × List String :=
  if requested then
    match res with
    | .ok p => (⟨p.1, p.2⟩, [])
    | .error e => (cur, [e])
  else (cur, [])

/-- `ps_scan_internal(ctx, results)`.  `readImage` stands for
`patternsleuth::process::internal::read_image()` and `resolve` for
`exe.resolve(UE4SSResolution::resolver())`; either failing propagates via `?`
with `results` untouched.  Otherwise each slot is handled in the source's
order (engine version first, then the nine `handle!` slots, the last four
marked optional), and the call succeeds iff no error was recorded. -/
def ps_scan_internal (readImage : Except String Unit)
    (resolve : Except String UE4SSResolution)
    (config : PsScanConfig) (results : PsScanResults) :
    PsScanResults × Except String Unit :=
  match readImage with
  | .error e => (results, .error e)
  | .ok _ =>
    match resolve with
    | .error e => (results, .error e)
    | .ok r =>
      let ev := handleEngineVersion config.engine_version r.engine_version results.engine_version
      let s1 := handle config.guobject_array false r.guobject_array results.guobject_array
      let s2 := handle config.gmalloc false r.gmalloc results.gmalloc
      let s3 := handle config.fname_tostring false r.fname_tostring results.fname_tostring
      let s4 := handle config.fname_ctor_wchar false r.fname_ctor_wchar results.fname_ctor_wchar
      let s5 := handle config.static_construct_object_internal false
        r.static_construct_object_internal results.static_construct_object_internal
      let s6 := handle config.ftext_fstring true r.ftext_fstring results.ftext_fstring
      let s7 := handle config.fuobject_hash_tables_get true
        r.fuobject_hash_tables_get results.fuobject_hash_tables_get
      let s8 := handle config.gnatives true r.gnatives results.gnatives
      let s9 := handle config.console_manager_singleton true
        r.console_manager_singleton results.console_manager_singleton
      let errs := ev.2 ++ s1.2 ++ s2.2 ++ s3.2 ++ s4.2 ++ s5.2 ++ s6.2 ++ s7.2 ++ s8.2 ++ s9.2
      ({ guobject_array := s1.1
         fname_tostring := s3.1
         fname_ctor_wchar := s4.1
         gmalloc := s2.1
         static_construct_object_internal := s5.1
         ftext_fstring := s6.1
         engine_version := ev.1
         fuobject_hash_tables_get := s7.1
         gnatives := s8.1
         console_manager_singleton := s9.1 },
       if errs.isEmpty then Except.ok () else Except.error "ScanError")

/-- `ps_scan(ctx, results)`: runs `ps_scan_internal` and reports `true` iff it
returned `Ok`.  The updated results structure is returned alongside. -/
def ps_scan (readImage : Except String Unit)
    (resolve : Except String UE4SSResolution)
    (config : PsScanConfig) (results : PsScanResults) : PsScanResults × Bool :=
  let r := ps_scan_internal readImage resolve config results
  (r.1, exceptIsOk r.2)

theorem handle_snd_mandatory (req : Bool) (res : Except String Nat) (cur : Nat) :
    (handle req false res cur).2 = [] ↔ (req = true → exceptIsOk res = true) := by
  cases req <;> cases res <;> simp [handle, exceptIsOk]

theorem handle_snd_optional (req : Bool) (res : Except String Nat) (cur : Nat) :
    (handle req true res cur).2 = [] := by
  cases req <;> cases res <;> simp [handle]

theorem handleEngineVersion_snd (req : Bool) (res : Except String (Nat × Nat))
    (cur : PsEngineVersion) :
    (handleEngineVersion req res cur).2 = [] ↔ (req = true → exceptIsOk res = true) := by
  cases req <;> cases res <;> simp [handleEngineVersion, exceptIsOk]

theorem exceptIsOk_ite (c : Prop) [Decidable c] (s : String) :
    exceptIsOk (if c then Except.ok () else Except.error s) = true ↔ c := by
  by_cases h : c <;> simp [h, exceptIsOk]

/-- C1: provided the image is readable and the composite resolution runs,
`ps_scan` returns `true` iff every requested mandatory slot (engine version,
GUObjectArray, GMalloc, FName::ToString, FName ctor, StaticConstructObject)
resolved `Ok`; the four optional slots never affect the outcome. -/
theorem c1_ps_scan_true_iff_requested_mandatory_ok
    (config : PsScanConfig) (r : UE4SSResolution) (results : PsScanResults) :
    (ps_scan (.ok ()) (.ok r) config results).2 = true ↔
      ((config.engine_version = true → exceptIsOk r.engine_version = true) ∧
       (config.guobject_array = true → exceptIsOk r.guobject_array = true) ∧
       (config.gmalloc = true → exceptIsOk r.gmalloc = true) ∧
       (config.fname_tostring = true → exceptIsOk r.fname_tostring = true) ∧
       (config.fname_ctor_wchar = true → exceptIsOk r.fname_ctor_wchar = true) ∧
       (config.static_construct_object_internal = true →
         exceptIsOk r.static_construct_object_internal = true)) := by
  simp [ps_scan, ps_scan_internal, exceptIsOk_ite, List.isEmpty_iff,
    List.append_eq_nil, handle_snd_mandatory, handle_snd_optional,
    handleEngineVersion_snd]

theorem handle_err_fst (opt : Bool) (e : String) (cur : Nat) :
    (handle true opt (.error e) cur).1 = 0 := by
  simp [handle]

theorem handle_not_requested (opt : Bool) (res : Except String Nat) (cur : Nat) :
    (handle false opt res cur).1 = cur := by
  simp [handle]

/-- A results structure pre-filled by the caller with nonzero sentinel values,
used to observe which fields a scan call writes. -/
def sampleResults : PsScanResults :=
  { guobject_array := 7, fname_tostring := 7, fname_ctor_wchar := 7, gmalloc := 7,
    static_construct_object_internal := 7, ftext_fstring := 7,
    engine_version := ⟨7, 7⟩, fuobject_hash_tables_get := 7, gnatives := 7,
    console_manager_singleton := 7 }

/-- A config requesting only the engine-version slot. -/
def engineVersionOnlyConfig : PsScanConfig :=
  { guobject_array := false, fname_tostring := false, fname_ctor_wchar := false,
    gmalloc := false, static_construct_object_internal := false, ftext_fstring := false,
    engine_version := true, fuobject_hash_tables_get := false, gnatives := false,
    console_manager_singleton := false }

/-- A config requesting every slot. -/
def allTrueConfig : PsScanConfig :=
  { guobject_array := true, fname_tostring := true, fname_ctor_wchar := true,
    gmalloc := true, static_construct_object_internal := true, ftext_fstring := true,
    engine_version := true, fuobject_hash_tables_get := true, gnatives := true,
    console_manager_singleton := true }

/-- A config requesting no slot. -/
def allFalseConfig : PsScanConfig :=
  { guobject_array := false, fname_tostring := false, fname_ctor_wchar := false,
    gmalloc := false, static_construct_object_internal := false, ftext_fstring := false,
    engine_version := false, fuobject_hash_tables_get := false, gnatives := false,
    console_manager_singleton := false }

/-- A resolution outcome in which every slot failed. -/
def allFailResolution : UE4SSResolution :=
  { guobject_array := .error "f1", fname_tostring := .error "f2",
    fname_ctor_wchar := .error "f3", gmalloc := .error "f4",
    static_construct_object_internal := .error "f5", ftext_fstring := .error "f6",
    engine_version := .error "f7", fuobject_hash_tables_get := .error "f8",
    gnatives := .error "f9", console_manager_singleton := .error "f10" }

/-- A resolution outcome in which only the engine-version slot failed. -/
def engineVersionFailResolution : UE4SSResolution :=
  { guobject_array := .ok 1, fname_tostring := .ok 2, fname_ctor_wchar := .ok 3,
    gmalloc := .ok 4, static_construct_object_internal := .ok 5, ftext_fstring := .ok 6,
    engine_version := .error "EngineVersion not found",
    fuobject_hash_tables_get := .ok 8, gnatives := .ok 9,
    console_manager_singleton := .ok 10 }

/-- C2 counterexample: with the engine-version slot requested and its resolver
failing, `ps_scan` leaves the caller's `engine_version` field untouched (here
`(7, 7)`) instead of writing the zero sentinel the claim promises. -/
theorem c2_counterexample_engine_version_not_zeroed :
    (ps_scan (.ok ()) (.ok engineVersionFailResolution) engineVersionOnlyConfig
        sampleResults).1.engine_version = ⟨7, 7⟩ ∧
    (ps_scan (.ok ()) (.ok engineVersionFailResolution) engineVersionOnlyConfig
        sampleResults).1.engine_version ≠ ⟨0, 0⟩ := by
  constructor
  · rfl
  · decide

/-- C2 (amended): for every requested address slot whose resolver fails,
`ps_scan` writes zero to that slot's output field; the engine-version slot is
the exception — on failure it is left unmodified, not zeroed. -/
theorem c2_amended_failed_requested_slots_zeroed
    (config : PsScanConfig) (r : UE4SSResolution) (results : PsScanResults) :
    (∀ e, config.guobject_array = true → r.guobject_array = .error e →
      (ps_scan (.ok ()) (.ok r) config results).1.guobject_array = 0) ∧
    (∀ e, config.fname_tostring = true → r.fname_tostring = .error e →
      (ps_scan (.ok ()) (.ok r) config results).1.fname_tostring = 0) ∧
    (∀ e, config.fname_ctor_wchar = true → r.fname_ctor_wchar = .error e →
      (ps_scan (.ok ()) (.ok r) config results).1.fname_ctor_wchar = 0) ∧
    (∀ e, config.gmalloc = true → r.gmalloc = .error e →
      (ps_scan (.ok ()) (.ok r) config results).1.gmalloc = 0) ∧
    (∀ e, config.static_construct_object_internal = true →
      r.static_construct_object_internal = .error e →
      (ps_scan (.ok ()) (.ok r) config results).1.static_construct_object_internal = 0) ∧
    (∀ e, config.ftext_fstring = true → r.ftext_fstring = .error e →
      (ps_scan (.ok ()) (.ok r) config results).1.ftext_fstring = 0) ∧
    (∀ e, config.fuobject_hash_tables_get = true → r.fuobject_hash_tables_get = .error e →
      (ps_scan (.ok ()) (.ok r) config results).1.fuobject_hash_tables_get = 0) ∧
    (∀ e, config.gnatives = true → r.gnatives = .error e →
      (ps_scan (.ok ()) (.ok r) config results).1.gnatives = 0) ∧
    (∀ e, config.console_manager_singleton = true → r.console_manager_singleton = .error e →
      (ps_scan (.ok ()) (.ok r) config results).1.console_manager_singleton = 0) ∧
    (∀ e, config.engine_version = true → r.engine_version = .error e →
      (ps_scan (.ok ()) (.ok r) config results).1.engine_version = results.engine_version) := by
  refine ⟨?_, ?_, ?_, ?_, ?_, ?_, ?_, ?_, ?_, ?_⟩ <;>
    (intro e h1 h2; simp [ps_scan, ps_scan_internal, h1, h2, handle, handleEngineVersion])

/-- C2 witness: the amended theorem applied to a run in which every slot is
requested and every resolver fails: all nine address slots read zero and the
engine-version slot keeps its pre-filled value. -/
theorem c2_amended_witness :
    (ps_scan (.ok ()) (.ok allFailResolution) allTrueConfig
        sampleResults).1.guobject_array = 0 ∧
    (ps_scan (.ok ()) (.ok allFailResolution) allTrueConfig
        sampleResults).1.engine_version = sampleResults.engine_version := by
  have h := c2_amended_failed_requested_slots_zeroed allTrueConfig allFailResolution
    sampleResults
  exact ⟨h.1 "f1" rfl rfl, h.2.2.2.2.2.2.2.2.2 "f7" rfl rfl⟩

/-- C9: every slot whose `ScanConfig` flag is false is left completely
unmodified by `ps_scan` — neither an address nor a zero sentinel is written to
an unrequested slot, for any image/resolution outcome. -/
theorem c9_unrequested_slots_unmodified
    (readImage : Except String Unit) (resolve : Except String UE4SSResolution)
    (config : PsScanConfig) (results : PsScanResults) :
    (config.guobject_array = false →
      (ps_scan readImage resolve config results).1.guobject_array = results.guobject_array) ∧
    (config.fname_tostring = false →
      (ps_scan readImage resolve config results).1.fname_tostring = results.fname_tostring) ∧
    (config.fname_ctor_wchar = false →
      (ps_scan readImage resolve config results).1.fname_ctor_wchar = results.fname_ctor_wchar) ∧
    (config.gmalloc = false →
      (ps_scan readImage resolve config results).1.gmalloc = results.gmalloc) ∧
    (config.static_construct_object_internal = false →
      (ps_scan readImage resolve config results).1.static_construct_object_internal =
        results.static_construct_object_internal) ∧
    (config.ftext_fstring = false →
      (ps_scan readImage resolve config results).1.ftext_fstring = results.ftext_fstring) ∧
    (config.engine_version = false →
      (ps_scan readImage resolve config results).1.engine_version = results.engine_version) ∧
    (config.fuobject_hash_tables_get = false →
      (ps_scan readImage resolve config results).1.fuobject_hash_tables_get =
        results.fuobject_hash_tables_get) ∧
    (config.gnatives = false →
      (ps_scan readImage resolve config results).1.gnatives = results.gnatives) ∧
    (config.console_manager_singleton = false →
      (ps_scan readImage resolve config results).1.console_manager_singleton =
        results.console_manager_singleton) := by
  refine ⟨?_, ?_, ?_, ?_, ?_, ?_, ?_, ?_, ?_, ?_⟩ <;>
    (intro h
     cases readImage with
     | error e => rfl
     | ok u =>
       cases resolve with
       | error e => rfl
       | ok r => simp [ps_scan, ps_scan_internal, h, handle, handleEngineVersion])

/-- C9 witness: with no slot requested and every resolver failing, every field
of the pre-filled results structure keeps its value. -/
theorem c9_witness :
    (ps_scan (.ok ()) (.ok allFailResolution) allFalseConfig
        sampleResults).1.guobject_array = sampleResults.guobject_array ∧
    (ps_scan (.ok ()) (.ok allFailResolution) allFalseConfig
        sampleResults).1.engine_version = sampleResults.engine_version ∧
    (ps_scan (.ok ()) (.ok allFailResolution) allFalseConfig
        sampleResults).1.console_manager_singleton =
      sampleResults.console_manager_singleton := by
  have h := c9_unrequested_slots_unmodified (.ok ()) (.ok allFailResolution)
    allFalseConfig sampleResults
  exact ⟨h.1 rfl, h.2.2.2.2.2.2.1 rfl, h.2.2.2.2.2.2.2.2.2 rfl⟩

/-- A byte section of the loaded image: base virtual address plus content
(`section.address()` / `section.data()` of the Image Provider). -/
structure PsSection where
  address : Nat
  data : List Nat
deriving DecidableEq, Repr

/-- A compiled exact-match pattern (the wildcard structure of
`patternsleuth_scanner::Pattern` is irrelevant to the claims verified here;
only identity of the compiled specification matters). -/
structure Pattern where
  bytes : List Nat
deriving DecidableEq, Repr

/-- Modelled from the spec: `patternsleuth_scanner::Pattern::from_bytes` (the
external scan engine's pattern compiler, not part of this repository's visible
source) compiles a literal byte sequence into an exact-match pattern and
rejects a zero-length sequence as compile-time invalid. -/
def patternFromBytes (bs : List Nat) : Option Pattern :=
  if bs.isEmpty then none else some ⟨bs⟩

/-- The accumulation loop shared by the four raw scan operations:
`all_results.extend(scan(section))` over the sections in enumeration order. -/
def scanAll (engine : PsSection → List Nat) (sections : List PsSection) : List Nat :=
  sections.foldl (fun acc s => acc ++ engine s) []

/-- The common epilogue of the four raw scan operations: write the count, and
write either a null results pointer (empty match list) or the owned buffer. -/
def matchBuffer (l : List Nat) : Option (List Nat) :=
  if l.isEmpty then none else some l

/-- `ps_scan_pattern(pattern_str, results, count)`.  `parsed` stands for the
outcome of `Pattern::new(pattern_str)` (string decoding and pattern parsing are
external); `scan_p` for `patternsleuth_scanner::scan_pattern` restricted to the
single specification the binding passes (`&[&pattern]`, entry `[0]` of the
per-pattern output).  The outer `none` models returning `false` with the output
pointers never written; `some (buf, n)` models returning `true` after writing
count `n` and buffer `buf` (`none` = null pointer). -/
def ps_scan_pattern (parsed : Option Pattern) (readImage : Except String Unit)
    (sections : List PsSection) (scan_p : Pattern → Nat → List Nat → List Nat) :
    Option (Option (List Nat) × Nat) :=
  match parsed with
  | none => none
  | some p =>
    match readImage with
    | .error _ => none
    | .ok _ =>
      let all := scanAll (fun s => scan_p p s.address s.data) sections
      some (matchBuffer all, all.length)

/-- `ps_scan_string(search_str, results, count)`: the C string's bytes are
compiled by `Pattern::from_bytes` into an exact-match pattern, then the same
scan body as `ps_scan_pattern` runs. -/
def ps_scan_string (searchBytes : List Nat) (readImage : Except String Unit)
    (sections : List PsSection) (scan_p : Pattern → Nat → List Nat → List Nat) :
    Option (Option (List Nat) × Nat) :=
  match patternFromBytes searchBytes with
  | none => none
  | some p =>
    match readImage with
    | .error _ => none
    | .ok _ =>
      let all := scanAll (fun s => scan_p p s.address s.data) sections
      some (matchBuffer all, all.length)

/-- The wide-string re-encoding step of `ps_scan_wstring`: take the 16-bit
code units up to (excluding) the first null terminator and emit each as its
two little-endian bytes. -/
def wstringBytes (units : List Nat) : List Nat :=
  (units.takeWhile (fun c => c != 0)).foldr
    (fun c acc => c % 256 :: c / 256 % 256 :: acc) []

/-- `ps_scan_wstring(search_str, results, count)`: `units` is the memory at
the caller's pointer, read as 16-bit code units; the terminator search,
re-encoding, `Pattern::from_bytes` compilation and scan body mirror the
source. -/
def ps_scan_wstring (units : List Nat) (readImage : Except String Unit)
    (sections : List PsSection) (scan_p : Pattern → Nat → List Nat → List Nat) :
    Option (Option (List Nat) × Nat) :=
  match patternFromBytes (wstringBytes units) with
  | none => none
  | some p =>
    match readImage with
    | .error _ => none
    | .ok _ =>
      let all := scanAll (fun s => scan_p p s.address s.data) sections
      some (matchBuffer all, all.length)

/-- `ps_scan_xref(target_address, results, count)`: no compilation step; the
external `scan_xref` engine is invoked once per section with the one target. -/
def ps_scan_xref (target : Nat) (readImage : Except String Unit)
    (sections : List PsSection) (scan_x : Nat → Nat → List Nat → List Nat) :
    Option (Option (List Nat) × Nat) :=
  match readImage with
  | .error _ => none
  | .ok _ =>
    let all := scanAll (fun s => scan_x target s.address s.data) sections
    some (matchBuffer all, all.length)

/-- `ps_free_results(results, count)` against a heap modelled as the list of
live allocations `(base pointer, element count)`; reconstituting and dropping
the `Vec` removes the allocation, and the guard makes a null pointer or zero
count a no-op. -/
def ps_free_results (heap : List (Nat × Nat)) (results : Nat) (count : Nat) :
    List (Nat × Nat) :=
  if results ≠ 0 ∧ count > 0 then heap.filter (fun a => a.1 != results) else heap

theorem scanAll_go (engine : PsSection → List Nat) :
    ∀ (sections : List PsSection) (init : List Nat),
      sections.foldl (fun acc s => acc ++ engine s) init =
        init ++ (sections.map engine).flatten
  | [], init => by simp
  | s :: ss, init => by
    simp [List.foldl_cons, scanAll_go engine ss (init ++ engine s), List.append_assoc]

/-- The imperative `extend` loop produces exactly the concatenation, in
section-enumeration order, of the per-section match sequences. -/
theorem scanAll_eq_flatten (engine : PsSection → List Nat) (sections : List PsSection) :
    scanAll engine sections = (sections.map engine).flatten := by
  simpa [scanAll] using scanAll_go engine sections []

theorem flatten_eq_nil_of_forall {l : List (List Nat)} (h : ∀ x ∈ l, x = []) :
    l.flatten = [] := by
  induction l with
  | nil => rfl
  | cons a t ih => simp [h a (by simp), ih (fun x hx => h x (by simp [hx]))]

theorem scanAll_eq_nil (engine : PsSection → List Nat) (sections : List PsSection)
    (h : ∀ s ∈ sections, engine s = []) : scanAll engine sections = [] := by
  rw [scanAll_eq_flatten]
  apply flatten_eq_nil_of_forall
  intro x hx
  obtain ⟨s, hs, rfl⟩ := List.mem_map.mp hx
  exact h s hs

/-- C6: a wide string whose first 16-bit code unit is the null terminator
yields a zero-length byte pattern, which fails to compile, so
`ps_scan_wstring` returns `false` (modelled `none`: no match buffer is
produced and no output is written). -/
theorem c6_empty_wstring_returns_false (rest : List Nat)
    (readImage : Except String Unit) (sections : List PsSection)
    (scan_p : Pattern → Nat → List Nat → List Nat) :
    ps_scan_wstring (0 :: rest) readImage sections scan_p = none := by
  simp [ps_scan_wstring, wstringBytes, patternFromBytes]

/-- C7: on success each of the four raw scan operations outputs exactly the
concatenation, in the Image Provider's section-enumeration order, of the Scan
Engine's per-section match-address sequences for the single compiled
specification, and the count output equals the total number of matches. -/
theorem c7_raw_scan_output_is_ordered_concatenation :
    (∀ (p : Pattern) (sections : List PsSection)
        (scan_p : Pattern → Nat → List Nat → List Nat),
      ps_scan_pattern (some p) (.ok ()) sections scan_p =
        some (matchBuffer ((sections.map fun s => scan_p p s.address s.data).flatten),
          ((sections.map fun s => scan_p p s.address s.data).flatten).length)) ∧
    (∀ (bs : List Nat) (sections : List PsSection)
        (scan_p : Pattern → Nat → List Nat → List Nat), bs ≠ [] →
      ps_scan_string bs (.ok ()) sections scan_p =
        some (matchBuffer ((sections.map fun s => scan_p ⟨bs⟩ s.address s.data).flatten),
          ((sections.map fun s => scan_p ⟨bs⟩ s.address s.data).flatten).length)) ∧
    (∀ (units : List Nat) (sections : List PsSection)
        (scan_p : Pattern → Nat → List Nat → List Nat), wstringBytes units ≠ [] →
      ps_scan_wstring units (.ok ()) sections scan_p =
        some (matchBuffer ((sections.map fun s =>
            scan_p ⟨wstringBytes units⟩ s.address s.data).flatten),
          ((sections.map fun s =>
            scan_p ⟨wstringBytes units⟩ s.address s.data).flatten).length)) ∧
    (∀ (target : Nat) (sections : List PsSection)
        (scan_x : Nat → Nat → List Nat → List Nat),
      ps_scan_xref target (.ok ()) sections scan_x =
        some (matchBuffer ((sections.map fun s => scan_x target s.address s.data).flatten),
          ((sections.map fun s => scan_x target s.address s.data).flatten).length)) := by
  refine ⟨?_, ?_, ?_, ?_⟩
  · intro p sections scan_p
    simp [ps_scan_pattern, scanAll_eq_flatten]
  · intro bs sections scan_p hbs
    simp [ps_scan_string, patternFromBytes, List.isEmpty_iff, hbs, scanAll_eq_flatten]
  · intro units sections scan_p hu
    simp [ps_scan_wstring, patternFromBytes, List.isEmpty_iff, hu, scanAll_eq_flatten]
  · intro target sections scan_x
    simp [ps_scan_xref, scanAll_eq_flatten]

/-- C7 witness: concrete two-section image where the engine reports the
section base as its one match — the buffer lists the bases in enumeration
order; plus a concrete wide-string scan with no matches. -/
theorem c7_witness :
    ps_scan_string [71] (.ok ()) [⟨100, [1]⟩, ⟨200, [2]⟩]
        (fun _ a _ => [a]) = some (some [100, 200], 2) ∧
    ps_scan_wstring [65, 0] (.ok ()) [⟨100, [1]⟩]
        (fun _ _ _ => []) = some (none, 0) := by
  have h := c7_raw_scan_output_is_ordered_concatenation
  constructor
  · exact (h.2.1 [71] [⟨100, [1]⟩, ⟨200, [2]⟩] (fun _ a _ => [a]) (by decide)).trans rfl
  · exact (h.2.2.1 [65, 0] [⟨100, [1]⟩] (fun _ _ _ => []) (by decide)).trans rfl

/-- C8: `ps_free_results` with a null pointer or a zero count deallocates
nothing — the heap of live allocations is unchanged. -/
theorem c8_free_results_null_or_zero_is_noop (heap : List (Nat × Nat))
    (results count : Nat) (h : results = 0 ∨ count = 0) :
    ps_free_results heap results count = heap := by
  rcases h with h | h <;> simp [ps_free_results, h]

/-- C8 witness: a live allocation survives a null-pointer free and a
zero-count free. -/
theorem c8_witness :
    ps_free_results [(100, 3)] 0 5 = [(100, 3)] ∧
    ps_free_results [(100, 3)] 100 0 = [(100, 3)] :=
  ⟨c8_free_results_null_or_zero_is_noop [(100, 3)] 0 5 (Or.inl rfl),
   c8_free_results_null_or_zero_is_noop [(100, 3)] 100 0 (Or.inr rfl)⟩

/-- C10: for each raw scan operation, a completed scan with zero matches is a
success — `true` is returned, 0 is written to the count output and a null
pointer to the results output — whereas a failure (unparseable input or
unreadable image) returns `false` with the output pointers never written. -/
theorem c10_zero_matches_is_success :
    (∀ (readImage : Except String Unit) (sections : List PsSection)
        (scan_p : Pattern → Nat → List Nat → List Nat),
      ps_scan_pattern none readImage sections scan_p = none) ∧
    (∀ (p : Pattern) (sections : List PsSection)
        (scan_p : Pattern → Nat → List Nat → List Nat),
      (∀ s ∈ sections, scan_p p s.address s.data = []) →
      ps_scan_pattern (some p) (.ok ()) sections scan_p = some (none, 0)) ∧
    (∀ (readImage : Except String Unit) (sections : List PsSection)
        (scan_p : Pattern → Nat → List Nat → List Nat),
      ps_scan_string [] readImage sections scan_p = none) ∧
    (∀ (bs : List Nat) (sections : List PsSection)
        (scan_p : Pattern → Nat → List Nat → List Nat), bs ≠ [] →
      (∀ s ∈ sections, scan_p ⟨bs⟩ s.address s.data = []) →
      ps_scan_string bs (.ok ()) sections scan_p = some (none, 0)) ∧
    (∀ (units : List Nat) (e : String) (sections : List PsSection)
        (scan_p : Pattern → Nat → List Nat → List Nat),
      ps_scan_wstring units (.error e) sections scan_p = none) ∧
    (∀ (units : List Nat) (sections : List PsSection)
        (scan_p : Pattern → Nat → List Nat → List Nat), wstringBytes units ≠ [] →
      (∀ s ∈ sections, scan_p ⟨wstringBytes units⟩ s.address s.data = []) →
      ps_scan_wstring units (.ok ()) sections scan_p = some (none, 0)) ∧
    (∀ (target : Nat) (e : String) (sections : List PsSection)
        (scan_x : Nat → Nat → List Nat → List Nat),
      ps_scan_xref target (.error e) sections scan_x = none) ∧
    (∀ (target : Nat) (sections : List PsSection)
        (scan_x : Nat → Nat → List Nat → List Nat),
      (∀ s ∈ sections, scan_x target s.address s.data = []) →
      ps_scan_xref target (.ok ()) sections scan_x = some (none, 0)) := by
  refine ⟨?_, ?_, ?_, ?_, ?_, ?_, ?_, ?_⟩
  · intro readImage sections scan_p
    simp [ps_scan_pattern]
  · intro p sections scan_p h
    have hz := scanAll_eq_nil (fun s => scan_p p s.address s.data) sections h
    simp [ps_scan_pattern, hz, matchBuffer]
  · intro readImage sections scan_p
    simp [ps_scan_string, patternFromBytes]
  · intro bs sections scan_p hbs h
    have hz := scanAll_eq_nil (fun s => scan_p ⟨bs⟩ s.address s.data) sections h
    simp [ps_scan_string, patternFromBytes, List.isEmpty_iff, hbs, hz, matchBuffer]
  · intro units e sections scan_p
    cases hp : patternFromBytes (wstringBytes units) <;>
      simp [ps_scan_wstring, hp]
  · intro units sections scan_p hu h
    have hz := scanAll_eq_nil
      (fun s => scan_p ⟨wstringBytes units⟩ s.address s.data) sections h
    simp [ps_scan_wstring, patternFromBytes, List.isEmpty_iff, hu, hz, matchBuffer]
  · intro target e sections scan_x
    simp [ps_scan_xref]
  · intro target sections scan_x h
    have hz := scanAll_eq_nil (fun s => scan_x target s.address s.data) sections h
    simp [ps_scan_xref, hz, matchBuffer]

/-- C10 witness: concrete one-section image with an engine that never matches
— every operation reports success with a null buffer and zero count — and the
corresponding concrete failures return `false`. -/
theorem c10_witness :
    ps_scan_pattern (some ⟨[5]⟩) (.ok ()) [⟨100, [1, 2]⟩]
        (fun _ _ _ => []) = some (none, 0) ∧
    ps_scan_string [66] (.ok ()) [⟨100, [1, 2]⟩] (fun _ _ _ => []) = some (none, 0) ∧
    ps_scan_wstring [66, 0] (.ok ()) [⟨100, [1, 2]⟩]
        (fun _ _ _ => []) = some (none, 0) ∧
    ps_scan_xref 42 (.ok ()) [⟨100, [1, 2]⟩] (fun _ _ _ => []) = some (none, 0) ∧
    ps_scan_pattern none (.ok ()) [⟨100, [1, 2]⟩] (fun _ _ _ => []) = none := by
  have h := c10_zero_matches_is_success
  refine ⟨?_, ?_, ?_, ?_, ?_⟩
  · exact h.2.1 ⟨[5]⟩ [⟨100, [1, 2]⟩] (fun _ _ _ => []) (by intro s _; rfl)
  · exact h.2.2.2.1 [66] [⟨100, [1, 2]⟩] (fun _ _ _ => []) (by decide)
      (by intro s _; rfl)
  · exact h.2.2.2.2.2.1 [66, 0] [⟨100, [1, 2]⟩] (fun _ _ _ => []) (by decide)
      (by intro s _; rfl)
  · exact h.2.2.2.2.2.2.2 42 [⟨100, [1, 2]⟩] (fun _ _ _ => []) (by intro s _; rfl)
  · exact h.1 (.ok ()) [⟨100, [1, 2]⟩] (fun _ _ _ => [])

/-- One entry of the resolver registry: `{ name, getter }`.  The getter is
modelled as an identifier handed to `resolve_many`. -/
structure ResolverEntry where
  name : String
  getter : Nat
deriving DecidableEq, Repr

/-- `resolvers().find(|r| r.name == name)`: the first registry entry whose
name equals the argument. -/
def findResolver (registry : List ResolverEntry) (name : String) :
    Option ResolverEntry :=
  registry.find? fun r => r.name == name

/-- The address written for one batch-resolution outcome:
`Ok(res) => res.get().unwrap_or(0), Err(_) => 0` (`res.get()` is modelled as
the `Option Nat` carried by the `Ok`). -/
def resolutionAddr (r : Except String (Option Nat)) : Nat :=
  match r with
  | .ok v => v.getD 0
  | .error _ => 0

/-- Observable collaborator effects of a resolution call, recorded so that
"returns without touching the image or running a scan" is statable. -/
inductive PsEvent where
  | readImage
  | resolveMany
deriving DecidableEq, Repr

/-- `ps_resolve_single(resolver_name)`.  `name` is `none` for a null pointer
or a string that fails UTF-8 decoding.  The registry lookup happens before
`read_image`, so an unknown name returns with an empty effect trace.  The
found getter goes through `exe.resolve_many(&[getter])` like a batch of one. -/
def ps_resolve_single (registry : List ResolverEntry)
    (readImage : Except String Unit)
    (resolveMany : List Nat → List (Except String (Option Nat)))
    (name : Option String) : Nat × List PsEvent :=
  match name with
  | none => (0, [])
  | some n =>
    match findResolver registry n with
    | none => (0, [])
    | some r =>
      match readImage with
      | .error _ => (0, [.readImage])
      | .ok _ =>
        match resolveMany [r.getter] with
        | [] => (0, [.readImage, .resolveMany])
        | res :: _ => (resolutionAddr res, [.readImage, .resolveMany])

/-- The `(index, name)` pairs collected from the null-terminated name array:
entries failing UTF-8 decoding (`none`) are skipped, but the index keeps
advancing, mirroring the `i += 1` after the `if let Ok(s)`. -/
def collectNames (names : List (Option String)) : List (Nat × String) :=
  names.enum.filterMap fun p => p.2.map fun s => (p.1, s)

/-- The `(original index, getter)` pairs of the names found in the registry,
in input order — `resolver_getters` zipped with `resolver_indices`. -/
def knownResolvers (registry : List ResolverEntry)
    (names : List (Option String)) : List (Nat × Nat) :=
  (collectNames names).filterMap fun p =>
    (findResolver registry p.2).map fun r => (p.1, r.getter)

/-- The original indices of collected names not found in the registry; the
source writes `0` to each of these slots during the collection loop. -/
def unknownIndices (registry : List ResolverEntry)
    (names : List (Option String)) : List Nat :=
  ((collectNames names).filter fun p => (findResolver registry p.2).isNone).map
    Prod.fst

/-- The one `exe.resolve_many(&resolver_getters)` call of the batch path. -/
def batchOf (registry : List ResolverEntry)
    (resolveMany : List Nat → List (Except String (Option Nat)))
    (names : List (Option String)) : List (Except String (Option Nat)) :=
  resolveMany ((knownResolvers registry names).map Prod.snd)

/-- Replay a list of `(slot index, value)` stores into the caller's output
array, modelled as a map from index to `Option` value (`none` = that slot was
never written).  Later stores win, as for real memory. -/
def applyWrites (f : Nat → Option Nat) (ws : List (Nat × Nat)) : Nat → Option Nat :=
  ws.foldl (fun g w j => if j = w.1 then some w.2 else g j) f

/-- `ps_resolve_batch(resolver_names, results)`.  `names` holds the pointer
array's entries up to the null terminator (`none` = invalid UTF-8).  Unknown
names get `0` written immediately; the known getters go through one
`resolve_many` call whose results are written back to the original indices.
Returns the final output array and the returned count (`names.len()`). -/
def ps_resolve_batch (readImage : Except String Unit)
    (registry : List ResolverEntry)
    (resolveMany : List Nat → List (Except String (Option Nat)))
    (names : List (Option String)) : (Nat → Option Nat) × Nat :=
  match readImage with
  | .error _ => (fun _ => none, 0)
  | .ok _ =>
    let known := knownResolvers registry names
    let batch := batchOf registry resolveMany names
    let ws := (unknownIndices registry names).map (fun i => (i, 0)) ++
      (known.map Prod.fst).zip (batch.map resolutionAddr)
    (applyWrites (fun _ => none) ws, (collectNames names).length)

/-- C5: `ps_resolve_single` returns the resolver's address on success and the
zero sentinel when the name is unknown, the image is unreadable, or resolution
fails; an unknown name returns `(0, [])` — zero with no image read and no scan
run. -/
theorem c5_resolve_single_success_or_zero_sentinel
    (registry : List ResolverEntry) (readImage : Except String Unit)
    (resolveMany : List Nat → List (Except String (Option Nat))) (n : String) :
    (findResolver registry n = none →
      ps_resolve_single registry readImage resolveMany (some n) = (0, [])) ∧
    (∀ r, findResolver registry n = some r → ∀ e, readImage = .error e →
      (ps_resolve_single registry readImage resolveMany (some n)).1 = 0) ∧
    (∀ r, findResolver registry n = some r → readImage = .ok () →
      ∀ a rest, resolveMany [r.getter] = .ok (some a) :: rest →
      (ps_resolve_single registry readImage resolveMany (some n)).1 = a) ∧
    (∀ r, findResolver registry n = some r → readImage = .ok () →
      ∀ e rest, resolveMany [r.getter] = .error e :: rest →
      (ps_resolve_single registry readImage resolveMany (some n)).1 = 0) := by
  refine ⟨?_, ?_, ?_, ?_⟩
  · intro h
    simp [ps_resolve_single, h]
  · intro r hr e he
    simp [ps_resolve_single, hr, he]
  · intro r hr he a rest hres
    simp [ps_resolve_single, hr, he, hres, resolutionAddr]
  · intro r hr he e rest hres
    simp [ps_resolve_single, hr, he, hres, resolutionAddr]

/-- C5 witness: a one-entry registry; the unknown name returns zero with an
empty effect trace, the known name returns its resolved address. -/
theorem c5_witness :
    ps_resolve_single [⟨"GUObjectArray", 3⟩] (.ok ())
      (fun gs => gs.map fun _ => .ok (some 4096)) (some "GMalloc") = (0, []) ∧
    (ps_resolve_single [⟨"GUObjectArray", 3⟩] (.ok ())
      (fun gs => gs.map fun _ => .ok (some 4096)) (some "GUObjectArray")).1 = 4096 := by
  constructor
  · exact (c5_resolve_single_success_or_zero_sentinel [⟨"GUObjectArray", 3⟩] (.ok ())
      (fun gs => gs.map fun _ => .ok (some 4096)) "GMalloc").1 rfl
  · exact (c5_resolve_single_success_or_zero_sentinel [⟨"GUObjectArray", 3⟩] (.ok ())
      (fun gs => gs.map fun _ => .ok (some 4096)) "GUObjectArray").2.2.1
      ⟨"GUObjectArray", 3⟩ rfl rfl 4096 [] rfl

/-- C4: a three-name batch — unknown "X", known-but-failing "F", known and
succeeding "S" — writes zero, zero and the resolved address at the original
input indices and returns 3. -/
theorem c4_batch_unknown_failing_succeeding :
    (ps_resolve_batch (.ok ()) [⟨"F", 10⟩, ⟨"S", 11⟩]
      (fun gs => gs.map fun g => if g == 11 then .ok (some 4660) else .error "fail")
      [some "X", some "F", some "S"]).2 = 3 ∧
    (ps_resolve_batch (.ok ()) [⟨"F", 10⟩, ⟨"S", 11⟩]
      (fun gs => gs.map fun g => if g == 11 then .ok (some 4660) else .error "fail")
      [some "X", some "F", some "S"]).1 0 = some 0 ∧
    (ps_resolve_batch (.ok ()) [⟨"F", 10⟩, ⟨"S", 11⟩]
      (fun gs => gs.map fun g => if g == 11 then .ok (some 4660) else .error "fail")
      [some "X", some "F", some "S"]).1 1 = some 0 ∧
    (ps_resolve_batch (.ok ()) [⟨"F", 10⟩, ⟨"S", 11⟩]
      (fun gs => gs.map fun g => if g == 11 then .ok (some 4660) else .error "fail")
      [some "X", some "F", some "S"]).1 2 = some 4660 := by
  refine ⟨rfl, rfl, rfl, rfl⟩

/-- C3 counterexample: an input array whose first entry is a byte string that
is not valid UTF-8 (`none`) followed by a known, succeeding name: the call
returns 1, yet slot 0 — an index below the returned count — is left
unwritten, refuting "no slot index below the returned count is left
unwritten". -/
theorem c3_counterexample_invalid_utf8_slot_unwritten :
    (ps_resolve_batch (.ok ()) [⟨"A", 1⟩] (fun gs => gs.map fun _ => .ok (some 5))
      [none, some "A"]).2 = 1 ∧
    (ps_resolve_batch (.ok ()) [⟨"A", 1⟩] (fun gs => gs.map fun _ => .ok (some 5))
      [none, some "A"]).1 0 = none ∧
    (ps_resolve_batch (.ok ()) [⟨"A", 1⟩] (fun gs => gs.map fun _ => .ok (some 5))
      [none, some "A"]).1 1 = some 5 := by
  refine ⟨rfl, rfl, rfl⟩

theorem applyWrites_cons (f : Nat → Option Nat) (w : Nat × Nat)
    (t : List (Nat × Nat)) :
    applyWrites f (w :: t) =
      applyWrites (fun j => if j = w.1 then some w.2 else f j) t := rfl

theorem applyWrites_notMem :
    ∀ (ws : List (Nat × Nat)) (f : Nat → Option Nat) (j : Nat),
      j ∉ ws.map Prod.fst → applyWrites f ws j = f j
  | [], _, _, _ => rfl
  | w :: t, f, j, h => by
    rw [applyWrites_cons,
      applyWrites_notMem t _ j (by intro hm; exact h (by simp [hm]))]
    have h1 : j ≠ w.1 := by
      intro e
      exact h (by simp [e])
    simp [h1]

theorem applyWrites_mem_nodup :
    ∀ (ws : List (Nat × Nat)) (f : Nat → Option Nat) (j v : Nat),
      (ws.map Prod.fst).Nodup → (j, v) ∈ ws → applyWrites f ws j = some v
  | [], _, _, _, _, hmem => absurd hmem (List.not_mem_nil _)
  | w :: t, f, j, v, hnd, hmem => by
    rw [applyWrites_cons]
    rw [List.map_cons, List.nodup_cons] at hnd
    rcases List.mem_cons.mp hmem with heq | hmem'
    · obtain ⟨hj, hv⟩ : w.1 = j ∧ w.2 = v := by rw [← heq]; exact ⟨rfl, rfl⟩
      rw [applyWrites_notMem t _ j (hj ▸ hnd.1)]
      simp [hj, hv]
    · exact applyWrites_mem_nodup t _ j v hnd.2 hmem'

theorem filterMapGetter_fst_sublist (registry : List ResolverEntry) :
    ∀ l : List (Nat × String),
      ((l.filterMap fun p =>
          (findResolver registry p.2).map fun r => (p.1, r.getter)).map
        Prod.fst).Sublist (l.map Prod.fst)
  | [] => by simp
  | p :: t => by
    cases hf : findResolver registry p.2 with
    | none =>
      simpa [List.filterMap_cons, hf] using
        (filterMapGetter_fst_sublist registry t).cons p.1
    | some r =>
      simpa [List.filterMap_cons, hf] using
        (filterMapGetter_fst_sublist registry t).cons₂ p.1

theorem collect_enumFrom_map_some (names : List String) :
    ∀ n : Nat,
      (List.enumFrom n (names.map some)).filterMap
        (fun p => p.2.map fun s => (p.1, s)) = List.enumFrom n names := by
  induction names with
  | nil => intro n; rfl
  | cons a t ih => intro n; simp [List.enumFrom, List.filterMap_cons, ih (n + 1)]

/-- When every entry of the name array is valid UTF-8, the collected
`(index, name)` pairs are exactly the enumeration of the names. -/
theorem collectNames_map_some (names : List String) :
    collectNames (names.map some) = names.enum :=
  collect_enumFrom_map_some names 0

theorem ps_resolve_batch_ok (registry : List ResolverEntry)
    (resolveMany : List Nat → List (Except String (Option Nat)))
    (names : List (Option String)) :
    ps_resolve_batch (.ok ()) registry resolveMany names =
      (applyWrites (fun _ => none)
        ((unknownIndices registry names).map (fun i => (i, 0)) ++
          ((knownResolvers registry names).map Prod.fst).zip
            ((batchOf registry resolveMany names).map resolutionAddr)),
        (collectNames names).length) := rfl

theorem batchOf_length (registry : List ResolverEntry)
    (resolveMany : List Nat → List (Except String (Option Nat)))
    (names : List (Option String))
    (hlen : ∀ gs, (resolveMany gs).length = gs.length) :
    (batchOf registry resolveMany names).length =
      (knownResolvers registry names).length := by
  simp [batchOf, hlen]

theorem batchWrites_keys_eq (registry : List ResolverEntry)
    (resolveMany : List Nat → List (Except String (Option Nat)))
    (names : List (Option String))
    (hlen : ∀ gs, (resolveMany gs).length = gs.length) :
    (((unknownIndices registry names).map (fun i => (i, 0)) ++
      ((knownResolvers registry names).map Prod.fst).zip
        ((batchOf registry resolveMany names).map resolutionAddr)).map Prod.fst) =
      unknownIndices registry names ++
        (knownResolvers registry names).map Prod.fst := by
  rw [List.map_append]
  congr 1
  · rw [List.map_map]
    exact List.map_id _
  · exact List.map_fst_zip _ _ (by
      simp [batchOf_length registry resolveMany names hlen])

theorem unknown_known_disjoint (registry : List ResolverEntry)
    (names : List (Option String))
    (hkeys : ((collectNames names).map Prod.fst).Nodup) :
    (unknownIndices registry names).Disjoint
      ((knownResolvers registry names).map Prod.fst) := by
  intro j hju hjk
  obtain ⟨p, hpf, hp1⟩ := List.mem_map.mp hju
  obtain ⟨hpm, hq⟩ := List.mem_filter.mp hpf
  obtain ⟨k, hkm, hk1⟩ := List.mem_map.mp hjk
  obtain ⟨q, hqm, hg⟩ := List.mem_filterMap.mp hkm
  cases hf : findResolver registry q.2 with
  | none =>
    rw [hf] at hg
    exact absurd hg (by simp)
  | some r =>
    rw [hf] at hg
    have hkval : (q.1, r.getter) = k := by simpa using hg
    have hpq : p = q := List.inj_on_of_nodup_map hkeys hpm hqm (by
      rw [hp1, ← hk1, ← hkval])
    rw [hpq, hf] at hq
    simp at hq

theorem batchWrites_keys_nodup (registry : List ResolverEntry)
    (resolveMany : List Nat → List (Except String (Option Nat)))
    (names : List (Option String))
    (hkeys : ((collectNames names).map Prod.fst).Nodup)
    (hlen : ∀ gs, (resolveMany gs).length = gs.length) :
    ((((unknownIndices registry names).map (fun i => (i, 0))) ++
      ((knownResolvers registry names).map Prod.fst).zip
        ((batchOf registry resolveMany names).map resolutionAddr)).map
      Prod.fst).Nodup := by
  rw [batchWrites_keys_eq registry resolveMany names hlen]
  refine List.Nodup.append ?_ ?_ (unknown_known_disjoint registry names hkeys)
  · exact hkeys.sublist ((List.filter_sublist _).map Prod.fst)
  · exact hkeys.sublist (filterMapGetter_fst_sublist registry _)

theorem ps_resolve_batch_unknown_zero (registry : List ResolverEntry)
    (resolveMany : List Nat → List (Except String (Option Nat)))
    (names : List (Option String))
    (hkeys : ((collectNames names).map Prod.fst).Nodup)
    (hlen : ∀ gs, (resolveMany gs).length = gs.length)
    (i : Nat) (s : String) (hmem : (i, s) ∈ collectNames names)
    (hfind : findResolver registry s = none) :
    (ps_resolve_batch (.ok ()) registry resolveMany names).1 i = some 0 := by
  rw [ps_resolve_batch_ok]
  have h0 : (i, 0) ∈ (unknownIndices registry names).map (fun i => (i, 0)) :=
    List.mem_map.mpr ⟨i,
      List.mem_map.mpr ⟨(i, s), List.mem_filter.mpr ⟨hmem, by simp [hfind]⟩, rfl⟩,
      rfl⟩
  exact applyWrites_mem_nodup _ _ i 0
    (batchWrites_keys_nodup registry resolveMany names hkeys hlen)
    (List.mem_append_left _ h0)

theorem ps_resolve_batch_known_slot (registry : List ResolverEntry)
    (resolveMany : List Nat → List (Except String (Option Nat)))
    (names : List (Option String))
    (hkeys : ((collectNames names).map Prod.fst).Nodup)
    (hlen : ∀ gs, (resolveMany gs).length = gs.length)
    (k : Fin (knownResolvers registry names).length) :
    (ps_resolve_batch (.ok ()) registry resolveMany names).1
        ((knownResolvers registry names).get k).1 =
      some (resolutionAddr
        ((batchOf registry resolveMany names).getD k (.error ""))) := by
  rw [ps_resolve_batch_ok]
  have hbl : (k : Nat) < (batchOf registry resolveMany names).length := by
    rw [batchOf_length registry resolveMany names hlen]
    exact k.isLt
  have hkz : (k : Nat) <
      (((knownResolvers registry names).map Prod.fst).zip
        ((batchOf registry resolveMany names).map resolutionAddr)).length := by
    rw [List.length_zip, List.length_map, List.length_map,
      batchOf_length registry resolveMany names hlen, Nat.min_self]
    exact k.isLt
  have hzel : (((knownResolvers registry names).map Prod.fst).zip
      ((batchOf registry resolveMany names).map resolutionAddr)).get ⟨(k : Nat), hkz⟩ =
      (((knownResolvers registry names).get k).1,
        resolutionAddr ((batchOf registry resolveMany names).get ⟨(k : Nat), hbl⟩)) := by
    simp [List.get_eq_getElem, List.getElem_zip, List.getElem_map]
  have hmem : (((knownResolvers registry names).get k).1,
      resolutionAddr ((batchOf registry resolveMany names).get ⟨(k : Nat), hbl⟩)) ∈
      ((knownResolvers registry names).map Prod.fst).zip
        ((batchOf registry resolveMany names).map resolutionAddr) := by
    rw [← hzel]
    simp only [List.get_eq_getElem]
    exact List.getElem_mem hkz
  rw [List.getD_eq_getElem _ _ hbl]
  exact applyWrites_mem_nodup _ (fun _ => none) _ _
    (batchWrites_keys_nodup registry resolveMany names hkeys hlen)
    (List.mem_append_right _ hmem)

theorem ps_resolve_batch_writes_key (registry : List ResolverEntry)
    (resolveMany : List Nat → List (Except String (Option Nat)))
    (names : List (Option String))
    (hkeys : ((collectNames names).map Prod.fst).Nodup)
    (hlen : ∀ gs, (resolveMany gs).length = gs.length)
    (i : Nat) (hi : i ∈ (collectNames names).map Prod.fst) :
    ((ps_resolve_batch (.ok ()) registry resolveMany names).1 i).isSome = true := by
  rw [ps_resolve_batch_ok]
  obtain ⟨p, hpm, hp1⟩ := List.mem_map.mp hi
  have hiws : i ∈ ((unknownIndices registry names).map (fun i => (i, 0)) ++
      ((knownResolvers registry names).map Prod.fst).zip
        ((batchOf registry resolveMany names).map resolutionAddr)).map Prod.fst := by
    rw [batchWrites_keys_eq registry resolveMany names hlen]
    cases hf : findResolver registry p.2 with
    | none =>
      apply List.mem_append_left
      exact List.mem_map.mpr ⟨p, List.mem_filter.mpr ⟨hpm, by simp [hf]⟩, hp1⟩
    | some r =>
      apply List.mem_append_right
      refine List.mem_map.mpr ⟨(p.1, r.getter), ?_, hp1⟩
      exact List.mem_filterMap.mpr ⟨p, hpm, by rw [hf]; rfl⟩
  obtain ⟨w, hwm, hw1⟩ := List.mem_map.mp hiws
  have hiw : (i, w.2) = w := by rw [← hw1]
  have hval := applyWrites_mem_nodup _ (fun _ => none) i w.2
    (batchWrites_keys_nodup registry resolveMany names hkeys hlen)
    (by rw [hiw]; exact hwm)
  simp [hval]

/-- C3 (amended): for every null-terminated input array in which each name is
a valid UTF-8 string, `ps_resolve_batch` returns the count of names processed
(including ones unknown to the registry), every slot index below the returned
count is written, unknown names receive zero, and the k-th known name's
original input slot receives the k-th result of the single batched
`resolve_many` call — results are index-corrected back to input order.  The
amendment drops names that are not valid UTF-8 from the guarantee: the source
skips such an entry, neither counting it nor writing its slot (see the
counterexample). -/
theorem c3_amended_batch_counts_and_fully_populates
    (registry : List ResolverEntry)
    (resolveMany : List Nat → List (Except String (Option Nat)))
    (names : List String)
    (hlen : ∀ gs, (resolveMany gs).length = gs.length) :
    (ps_resolve_batch (.ok ()) registry resolveMany (names.map some)).2 =
      names.length ∧
    (∀ i, i < names.length →
      ((ps_resolve_batch (.ok ()) registry resolveMany (names.map some)).1
        i).isSome = true) ∧
    (∀ i s, (i, s) ∈ collectNames (names.map some) →
      findResolver registry s = none →
      (ps_resolve_batch (.ok ()) registry resolveMany (names.map some)).1 i =
        some 0) ∧
    (∀ k : Fin (knownResolvers registry (names.map some)).length,
      (ps_resolve_batch (.ok ()) registry resolveMany (names.map some)).1
          ((knownResolvers registry (names.map some)).get k).1 =
        some (resolutionAddr
          ((batchOf registry resolveMany (names.map some)).getD k
            (.error "")))) := by
  have hkeys : ((collectNames (names.map some)).map Prod.fst).Nodup := by
    rw [collectNames_map_some]
    exact List.nodup_enum_map_fst names
  refine ⟨?_, ?_, ?_, ?_⟩
  · rw [ps_resolve_batch_ok]
    simp [collectNames_map_some, List.enum_length]
  · intro i hi
    apply ps_resolve_batch_writes_key registry resolveMany _ hkeys hlen
    rw [collectNames_map_some, List.enum_map_fst]
    exact List.mem_range.mpr hi
  · intro i s hmem hfind
    exact ps_resolve_batch_unknown_zero registry resolveMany _ hkeys hlen i s
      hmem hfind
  · intro k
    exact ps_resolve_batch_known_slot registry resolveMany _ hkeys hlen k

/-- C3 witness: the amended theorem applied to the concrete three-name batch
(unknown, failing, succeeding): count 3 and every slot below it written. -/
theorem c3_witness :
    (ps_resolve_batch (.ok ()) [⟨"F", 10⟩, ⟨"S", 11⟩]
      (fun gs => gs.map fun g => if g == 11 then .ok (some 4660) else .error "fail")
      [some "X", some "F", some "S"]).2 = 3 ∧
    ((ps_resolve_batch (.ok ()) [⟨"F", 10⟩, ⟨"S", 11⟩]
      (fun gs => gs.map fun g => if g == 11 then .ok (some 4660) else .error "fail")
      [some "X", some "F", some "S"]).1 0).isSome = true ∧
    ((ps_resolve_batch (.ok ()) [⟨"F", 10⟩, ⟨"S", 11⟩]
      (fun gs => gs.map fun g => if g == 11 then .ok (some 4660) else .error "fail")
      [some "X", some "F", some "S"]).1 2).isSome = true := by
  have h := c3_amended_batch_counts_and_fully_populates [⟨"F", 10⟩, ⟨"S", 11⟩]
    (fun gs => gs.map fun g => if g == 11 then .ok (some 4660) else .error "fail")
    ["X", "F", "S"] (by intro gs; simp)
  exact ⟨h.1, h.2.1 0 (by decide), h.2.1 2 (by decide)⟩
